import Mathlib

/-!
Verification of the audio capture lifecycle of src/hooks/useAudioRecorder.ts.

The hook state (React state plus refs) is modelled as an explicit record, and
each operation of the hook (startRecording, stopRecording, pauseRecording,
resumeRecording, the recorder callbacks and the animation-frame timer) is a
pure function over that record.  Platform behaviour (getUserMedia,
getDisplayMedia, MediaRecorder support and realized format) is an explicit
oracle passed to startRecording.
-/

namespace RecMind

/-- Recording lifecycle states, from RecordingState in src/types.ts. -/
inductive RecordingState
  | idle
  | recording
  | paused
deriving DecidableEq

/-- Kind of a platform media track. -/
inductive TrackKind
  | audio
  | video
deriving DecidableEq

/-- A platform media track; stopped records whether track.stop was called. -/
structure MediaStreamTrack where
  kind : TrackKind
  stopped : Bool
deriving DecidableEq

/-- A platform media stream: a list of tracks. -/
structure MediaStream where
  tracks : List MediaStreamTrack
deriving DecidableEq

/-- States of a platform MediaRecorder. -/
inductive RecorderState
  | inactive
  | recording
  | paused
deriving DecidableEq

/-- A platform MediaRecorder: its state and the realized mime type it reports
after creation (possibly differing from the requested one). -/
structure MediaRecorder where
  state : RecorderState
  mimeType : String
deriving DecidableEq

/-- A binary blob: byte data plus a mime type tag. -/
structure Blob where
  data : List Nat
  type : String
deriving DecidableEq

/-- Platform oracle: the outcome of every platform call startRecording makes.
micOk: getUserMedia succeeds; displayOk: getDisplayMedia succeeds;
displayAudioTracks: number of audio tracks in the acquired display stream;
isTypeSupported: MediaRecorder.isTypeSupported; recorderOk: the MediaRecorder
constructor and recorder.start succeed; recorderMime: the mime type the
recorder reports after creation (empty when the platform reports none). -/
structure Platform where
  micOk : Bool
  displayOk : Bool
  displayAudioTracks : Nat
  isTypeSupported : String → Bool
  recorderOk : Bool
  recorderMime : String

/-- The state of useAudioRecorder: React state (recordingState, audioBlob,
audioMimeType, duration, analyser) and refs (mediaRecorderRef,
audioContextRef, streamsRef, chunksRef, mimeTypeRef). -/
structure HookState where
  recordingState : RecordingState
  audioBlob : Option Blob
  audioMimeType : Option String
  duration : Nat
  analyser : Bool
  mediaRecorder : Option MediaRecorder
  audioContextOpen : Bool
  streams : List MediaStream
  chunks : List (List Nat)
  mimeTypeRef : String
deriving DecidableEq

/-- The initial hook state (all useState and useRef initial values). -/
def initialHookState : HookState :=
  { recordingState := RecordingState.idle
    audioBlob := none
    audioMimeType := none
    duration := 0
    analyser := false
    mediaRecorder := none
    audioContextOpen := false
    streams := []
    chunks := []
    mimeTypeRef := "" }

/-- The ordered encoding preference list (lines 22-26). -/
def preferredTypes : List String :=
  ["audio/mp4", "audio/webm;codecs=opus", "audio/webm"]

/-- The loop of getBestAudioMimeType (lines 28-37): first supported entry,
or the empty string (platform default) when none is supported. -/
def firstSupported (support : String → Bool) : List String → String
  | [] => ""
  | t :: ts => if support t then t else firstSupported support ts

/-- getBestAudioMimeType (lines 21-38). -/
def getBestAudioMimeType (p : Platform) : String :=
  firstSupported p.isTypeSupported preferredTypes

/-- A live (not yet stopped) audio track. -/
def liveAudioTrack : MediaStreamTrack := { kind := TrackKind.audio, stopped := false }

/-- A live (not yet stopped) video track. -/
def liveVideoTrack : MediaStreamTrack := { kind := TrackKind.video, stopped := false }

/-- The stream produced by getUserMedia with audio: true (line 116). -/
def micStream : MediaStream := { tracks := [liveAudioTrack] }

/-- The stream produced by getDisplayMedia with video: true, audio: true
(lines 130-133): one video track plus the audio tracks the user shared. -/
def displayStream (audioCount : Nat) : MediaStream :=
  { tracks := liveVideoTrack :: List.replicate audioCount liveAudioTrack }

/-- stream.getTracks().forEach(t => t.stop()) on one stream. -/
def stopAllTracks (s : MediaStream) : MediaStream :=
  { tracks := s.tracks.map (fun t => { t with stopped := true }) }

/-- Which throw site inside the try block of startRecording fired. -/
inductive StartError
  | invalidRequest
  | sourceUnavailable
  | recorderError
deriving DecidableEq

/-- Lines 114-125: microphone acquisition.  On failure the error is rethrown
only when the microphone was the only requested source. -/
def acquireMic (p : Platform) (enableMic enableSystem : Bool) (s : HookState) :
    Except (StartError × HookState) HookState :=
  if enableMic then
    if p.micOk then
      Except.ok { s with streams := s.streams ++ [micStream] }
    else if !enableSystem then
      Except.error (StartError.sourceUnavailable, s)
    else
      Except.ok s
  else
    Except.ok s

/-- Lines 128-155: system audio acquisition.  On failure the error is
rethrown only when system audio was the only requested source.  When the
stream is acquired but carries no audio track, its tracks are stopped at
once (line 149); the stream was already pushed to streamsRef (line 134), so
it stays in the list in stopped form. -/
def acquireDisplay (p : Platform) (enableMic enableSystem : Bool) (s : HookState) :
    Except (StartError × HookState) HookState :=
  if enableSystem then
    if p.displayOk then
      if 0 < p.displayAudioTracks then
        Except.ok { s with streams := s.streams ++ [displayStream p.displayAudioTracks] }
      else
        Except.ok { s with streams := s.streams ++ [stopAllTracks (displayStream p.displayAudioTracks)] }
    else if !enableMic then
      Except.error (StartError.sourceUnavailable, s)
    else
      Except.ok s
  else
    Except.ok s

/-- The try block of startRecording (lines 84-200).  An error carries the
hook state as already mutated when the throw fired, since React state
updates made before the throw persist. -/
def startAttempt (p : Platform) (enableMic enableSystem : Bool) (s : HookState) :
    Except (StartError × HookState) HookState :=
  -- line 85: guard before any acquisition and before any state clearing
  if !enableMic && !enableSystem then
    Except.error (StartError.invalidRequest, s)
  else
    -- lines 89-92: clear prior result, chunks, duration and stream list;
    -- lines 94-111: create the audio context, mixer, destination and analyser
    let s1 : HookState :=
      { s with audioBlob := none, chunks := [], duration := 0, streams := [],
               audioContextOpen := true, analyser := true }
    match acquireMic p enableMic enableSystem s1 with
    | Except.error e => Except.error e
    | Except.ok s2 =>
      match acquireDisplay p enableMic enableSystem s2 with
      | Except.error e => Except.error e
      | Except.ok s3 =>
        -- lines 157-160: negotiate the requested format
        let mt := getBestAudioMimeType p
        let s4 : HookState := { s3 with mimeTypeRef := mt, audioMimeType := some mt }
        -- lines 162-200: create the recorder, start it, enter RECORDING
        if p.recorderOk then
          Except.ok { s4 with
            mediaRecorder := some { state := RecorderState.recording, mimeType := p.recorderMime },
            recordingState := RecordingState.recording }
        else
          Except.error (StartError.recorderError, s4)

/-- startRecording (lines 83-207): the try block plus the catch handler
(lines 202-206), which alerts once and sets the state to IDLE.  The second
component is the surfaced failure: some e models the single alert. -/
def startRecording (p : Platform) (enableMic enableSystem : Bool) (s : HookState) :
    HookState × Option StartError :=
  match startAttempt p enableMic enableSystem s with
  | Except.ok s1 => (s1, none)
  | Except.error (e, s1) => ({ s1 with recordingState := RecordingState.idle }, some e)

/-- Line 181: finalMimeType = recorder.mimeType or mimeTypeRef.current or
audio/webm, with the JS or-chain on strings (empty string is falsy). -/
def finalMimeType (recorderMime mimeTypeRef : String) : String :=
  if recorderMime ≠ "" then recorderMime
  else if mimeTypeRef ≠ "" then mimeTypeRef
  else "audio/webm"

/-- recorder.onstop (lines 179-197): build the blob from the chunks with the
realized mime type, stop every track of every collected stream and clear the
list, close the audio context, clear the analyser, return to IDLE. -/
def onstop (r : MediaRecorder) (s : HookState) : HookState :=
  let fm := finalMimeType r.mimeType s.mimeTypeRef
  { s with
    audioBlob := some { data := s.chunks.flatten, type := fm }
    audioMimeType := some fm
    streams := []
    audioContextOpen := false
    analyser := false
    recordingState := RecordingState.idle }

/-- Platform recorder.stop(): the recorder becomes inactive and its onstop
handler fires. -/
def recorderStop (s : HookState) : HookState :=
  match s.mediaRecorder with
  | none => s
  | some r =>
    let r1 : MediaRecorder := { r with state := RecorderState.inactive }
    onstop r1 { s with mediaRecorder := some r1 }

/-- stopRecording (lines 209-213): stop the recorder unless it is already
inactive (or absent). -/
def stopRecording (s : HookState) : HookState :=
  match s.mediaRecorder with
  | none => s
  | some r =>
    if r.state ≠ RecorderState.inactive then recorderStop s else s

/-- The onended handler wired to the display video track (lines 141-145):
stop the recorder unless it is already inactive (or absent). -/
def onended (s : HookState) : HookState :=
  match s.mediaRecorder with
  | none => s
  | some r =>
    if r.state ≠ RecorderState.inactive then recorderStop s else s

/-- recorder.ondataavailable (lines 175-177): append the delivered payload
to the chunk list, discarding zero-length payloads. -/
def ondataavailable (s : HookState) (d : List Nat) : HookState :=
  if 0 < d.length then { s with chunks := s.chunks ++ [d] } else s

/-- pauseRecording (lines 215-220). -/
def pauseRecording (s : HookState) : HookState :=
  match s.mediaRecorder with
  | none => s
  | some r =>
    if r.state = RecorderState.recording then
      { s with mediaRecorder := some { r with state := RecorderState.paused },
               recordingState := RecordingState.paused }
    else s

/-- resumeRecording (lines 222-227). -/
def resumeRecording (s : HookState) : HookState :=
  match s.mediaRecorder with
  | none => s
  | some r =>
    if r.state = RecorderState.paused then
      { s with mediaRecorder := some { r with state := RecorderState.recording },
               recordingState := RecordingState.recording }
    else s

/-- Line 63: on entering RECORDING, frameStartRef is set to
performance.now() minus the accumulated duration in milliseconds. -/
def frameStart (now durationSecs : Nat) : Nat := now - durationSecs * 1000

/-- Lines 65-66: on every animation-frame tick the duration is recomputed
as the floor of (now - frameStart) / 1000. -/
def tickDuration (now fs : Nat) : Nat := (now - fs) / 1000

/-- A platform on which both microphone and display acquisition fail. -/
def pBothFail : Platform :=
  { micOk := false, displayOk := false, displayAudioTracks := 0,
    isTypeSupported := fun _ => false, recorderOk := true, recorderMime := "audio/webm" }

/-- A platform with a working microphone but a failing recorder constructor. -/
def pRecorderFail : Platform :=
  { micOk := true, displayOk := false, displayAudioTracks := 0,
    isTypeSupported := fun t => t == "audio/mp4", recorderOk := false, recorderMime := "" }

/-- A platform where the microphone fails and display capture succeeds with
one audio track. -/
def pMicFailSysOk : Platform :=
  { micOk := false, displayOk := true, displayAudioTracks := 1,
    isTypeSupported := fun _ => true, recorderOk := true, recorderMime := "audio/webm" }

/-- A platform supporting only audio/webm whose recorder realizes a format
different from the requested one. -/
def pRealizedDiffers : Platform :=
  { micOk := true, displayOk := false, displayAudioTracks := 0,
    isTypeSupported := fun t => t == "audio/webm", recorderOk := true, recorderMime := "audio/ogg" }

/-- A hook state holding the result of a previous session. -/
def prevSession : HookState :=
  { initialHookState with
      audioBlob := some { data := [7, 7], type := "audio/mp4" },
      audioMimeType := some "audio/mp4",
      duration := 42 }

/-- A mid-recording session state with some chunks already delivered. -/
def sessionMid : HookState :=
  { recordingState := RecordingState.recording
    audioBlob := none
    audioMimeType := some "audio/mp4"
    duration := 2
    analyser := true
    mediaRecorder := some { state := RecorderState.recording, mimeType := "audio/mp4" }
    audioContextOpen := true
    streams := [displayStream 1]
    chunks := [[1, 2], [3]]
    mimeTypeRef := "audio/mp4" }

/-- A freshly started recording session with no chunks delivered yet. -/
def sessionFresh : HookState :=
  { sessionMid with
      chunks := [],
      mediaRecorder := some { state := RecorderState.recording, mimeType := "audio/webm" },
      mimeTypeRef := "audio/webm" }

/-- The empty-selection guard fires before any state clearing: the result is
the prior state with only the lifecycle state forced to Idle by the failure
handler, plus a surfaced InvalidRequest. -/
theorem startRecording_noSources (p : Platform) (s : HookState) :
    startRecording p false false s =
      ({ s with recordingState := RecordingState.idle }, some StartError.invalidRequest) := rfl

/-- C1 counterexample: on a platform where both requested acquisitions fail,
startRecording requesting both sources surfaces no failure at all and moves
the session to Recording with an empty source set, contradicting the claim
that the failure propagates as SourceUnavailable and that the session never
leaves Idle with an empty source set. -/
theorem claim_C1_counterexample :
    (startRecording pBothFail true true initialHookState).2 = none ∧
    (startRecording pBothFail true true initialHookState).1.recordingState =
      RecordingState.recording ∧
    (startRecording pBothFail true true initialHookState).1.streams = [] :=
  ⟨rfl, rfl, rfl⟩

/-- C1 (corrected): when the only requested source fails to acquire, the
failure propagates as SourceUnavailable and the session stays in Idle with
no acquired source; but when both sources are requested and both fail, each
failure is swallowed because the other source was requested, and the session
transitions to Recording with an empty source set. -/
theorem claim_C1_amended (p : Platform) (s : HookState) :
    (p.micOk = false →
      (startRecording p true false s).2 = some StartError.sourceUnavailable ∧
      (startRecording p true false s).1.recordingState = RecordingState.idle ∧
      (startRecording p true false s).1.streams = []) ∧
    (p.displayOk = false →
      (startRecording p false true s).2 = some StartError.sourceUnavailable ∧
      (startRecording p false true s).1.recordingState = RecordingState.idle ∧
      (startRecording p false true s).1.streams = []) ∧
    (p.micOk = false → p.displayOk = false → p.recorderOk = true →
      (startRecording p true true s).2 = none ∧
      (startRecording p true true s).1.recordingState = RecordingState.recording ∧
      (startRecording p true true s).1.streams = []) := by
  refine ⟨fun hm => ?_, fun hd => ?_, fun hm hd hr => ?_⟩
  · simp [startRecording, startAttempt, acquireMic, acquireDisplay, hm]
  · simp [startRecording, startAttempt, acquireMic, acquireDisplay, hd]
  · simp [startRecording, startAttempt, acquireMic, acquireDisplay, hm, hd, hr]

/-- Witness for the amended C1 at a concrete platform and state. -/
theorem claim_C1_amended_witness :
    (startRecording pBothFail true false initialHookState).2 =
      some StartError.sourceUnavailable ∧
    (startRecording pBothFail true true initialHookState).1.recordingState =
      RecordingState.recording :=
  ⟨((claim_C1_amended pBothFail initialHookState).1 rfl).1,
   ((claim_C1_amended pBothFail initialHookState).2.2 rfl rfl rfl).2.1⟩

/-- C2 (confirmed): start with both source flags false fails with
InvalidRequest before any acquisition attempt: the resulting state equals
the prior state except for the lifecycle state set to Idle by the failure
handler, so no stream is acquired, no graph node is created and the prior
stored result is untouched. -/
theorem claim_C2 (p : Platform) (s : HookState) :
    startRecording p false false s =
      ({ s with recordingState := RecordingState.idle }, some StartError.invalidRequest) ∧
    (startRecording p false false s).1.recordingState = RecordingState.idle ∧
    (startRecording p false false s).1.streams = s.streams ∧
    (startRecording p false false s).1.analyser = s.analyser ∧
    (startRecording p false false s).1.audioContextOpen = s.audioContextOpen ∧
    (startRecording p false false s).1.mediaRecorder = s.mediaRecorder := by
  refine ⟨startRecording_noSources p s, ?_, ?_, ?_, ?_, ?_⟩ <;>
    rw [startRecording_noSources]

/-- C3 counterexample: with the microphone acquired and the recorder
constructor failing afterwards, start fails and ends in Idle with one
surfaced notice, but the acquired microphone stream is still held in the
stream list with its track not stopped: the claim that every stream acquired
during a failing start call has all its tracks stopped is false. -/
theorem claim_C3_counterexample :
    (startRecording pRecorderFail true false initialHookState).2 =
      some StartError.recorderError ∧
    (startRecording pRecorderFail true false initialHookState).1.recordingState =
      RecordingState.idle ∧
    (startRecording pRecorderFail true false initialHookState).1.streams = [micStream] ∧
    micStream.tracks.all (fun t => !t.stopped) = true :=
  ⟨rfl, rfl, rfl, rfl⟩

/-- C3 (corrected): every failing start call ends in Idle and surfaces a
single failure notice, but the failure handler releases nothing: a
microphone stream acquired before a later recorder-creation failure remains
in the stream list with its track still live. -/
theorem claim_C3_amended (p : Platform) (s : HookState) (sys : Bool)
    (hm : p.micOk = true) (hr : p.recorderOk = false) :
    (startRecording p true sys s).2 = some StartError.recorderError ∧
    (startRecording p true sys s).1.recordingState = RecordingState.idle ∧
    micStream ∈ (startRecording p true sys s).1.streams ∧
    ∀ t ∈ micStream.tracks, t.stopped = false := by
  cases sys
  · simp [startRecording, startAttempt, acquireMic, acquireDisplay, hm, hr,
      micStream, liveAudioTrack]
  · by_cases hd : p.displayOk
    · by_cases hat : 0 < p.displayAudioTracks <;>
        simp [startRecording, startAttempt, acquireMic, acquireDisplay, hm, hr, hd, hat,
          micStream, liveAudioTrack]
    · simp [startRecording, startAttempt, acquireMic, acquireDisplay, hm, hr, hd,
        micStream, liveAudioTrack]

/-- Witness for the amended C3 at a concrete platform and state. -/
theorem claim_C3_amended_witness :
    (startRecording pRecorderFail true false prevSession).2 =
      some StartError.recorderError ∧
    (startRecording pRecorderFail true false prevSession).1.recordingState =
      RecordingState.idle ∧
    micStream ∈ (startRecording pRecorderFail true false prevSession).1.streams ∧
    ∀ t ∈ micStream.tracks, t.stopped = false :=
  claim_C3_amended pRecorderFail prevSession false rfl rfl

/-- C4 (confirmed): when both sources are requested, the microphone fails
and display capture succeeds with an audio track, start succeeds with no
surfaced failure, the session enters Recording, and the source set is
exactly the single display stream. -/
theorem claim_C4 (p : Platform) (s : HookState)
    (hm : p.micOk = false) (hd : p.displayOk = true)
    (hat : 0 < p.displayAudioTracks) (hr : p.recorderOk = true) :
    (startRecording p true true s).2 = none ∧
    (startRecording p true true s).1.recordingState = RecordingState.recording ∧
    (startRecording p true true s).1.streams = [displayStream p.displayAudioTracks] ∧
    (startRecording p true true s).1.streams.length = 1 := by
  simp [startRecording, startAttempt, acquireMic, acquireDisplay, hm, hd, hat, hr]

/-- Witness for C4 at a concrete platform and state. -/
theorem claim_C4_witness :
    (startRecording pMicFailSysOk true true initialHookState).2 = none ∧
    (startRecording pMicFailSysOk true true initialHookState).1.recordingState =
      RecordingState.recording ∧
    (startRecording pMicFailSysOk true true initialHookState).1.streams =
      [displayStream 1] ∧
    (startRecording pMicFailSysOk true true initialHookState).1.streams.length = 1 :=
  claim_C4 pMicFailSysOk initialHookState rfl rfl (by decide) rfl

/-- Folding a delivery sequence through ondataavailable appends exactly the
nonzero-length payloads to the chunk list, in delivery order, and changes no
other field. -/
theorem foldl_ondataavailable (ds : List (List Nat)) (s : HookState) :
    ds.foldl ondataavailable s =
      { s with chunks := s.chunks ++ ds.filter (fun d => decide (0 < d.length)) } := by
  induction ds generalizing s with
  | nil => simp
  | cons d ds ih =>
    by_cases h : 0 < d.length
    · simp [ondataavailable, h, ih, List.filter_cons]
    · simp [ondataavailable, h, ih, List.filter_cons]

/-- Dropping zero-length chunks does not change the concatenation. -/
theorem flatten_filter_pos (ds : List (List Nat)) :
    (ds.filter (fun d => decide (0 < d.length))).flatten = ds.flatten := by
  induction ds with
  | nil => rfl
  | cons d ds ih =>
    by_cases h : 0 < d.length
    · simp [List.filter_cons, h, ih]
    · have hd : d = [] := by
        cases d with
        | nil => rfl
        | cons a as => simp at h
      subst hd
      simp [List.filter_cons, ih]

/-- C5 (confirmed): for any sequence of chunk-delivery events during one
session, the finalized blob byte content equals the concatenation of the
delivered payloads in delivery order with every zero-length payload
discarded, which in turn equals the plain concatenation of all payloads. -/
theorem claim_C5 (ds : List (List Nat)) (s : HookState) (r : MediaRecorder)
    (h1 : s.mediaRecorder = some r) (h2 : r.state ≠ RecorderState.inactive)
    (h3 : s.chunks = []) :
    (stopRecording (ds.foldl ondataavailable s)).audioBlob =
      some { data := (ds.filter (fun d => decide (0 < d.length))).flatten,
             type := finalMimeType r.mimeType s.mimeTypeRef } ∧
    (ds.filter (fun d => decide (0 < d.length))).flatten = ds.flatten := by
  refine ⟨?_, flatten_filter_pos ds⟩
  rw [foldl_ondataavailable]
  simp [stopRecording, h1, h2, recorderStop, onstop, h3]

/-- Witness for C5 on a concrete delivery sequence with distinct payloads
and one zero-length payload. -/
theorem claim_C5_witness :
    (stopRecording ([[1], [], [2, 3]].foldl ondataavailable sessionFresh)).audioBlob =
      some { data := [1, 2, 3], type := "audio/webm" } ∧
    ([[1], [], [2, 3]].filter (fun d => decide (0 < d.length))).flatten =
      [[1], [], [2, 3]].flatten :=
  claim_C5 [[1], [], [2, 3]] sessionFresh
    { state := RecorderState.recording, mimeType := "audio/webm" } rfl (by decide) rfl

/-- C6 (confirmed): when a session paused at T seconds is resumed at
monotonic instant t1, the timer effect offsets the reference instant by the
accumulated elapsed value, and the animation-frame tick fired D seconds
after the resume recomputes the elapsed time as now minus that reference
instant, reporting T + D seconds — neither D alone nor T alone. -/
theorem claim_C6 (T D t1 : Nat) (h : T * 1000 ≤ t1) :
    frameStart t1 T = t1 - T * 1000 ∧
    tickDuration (t1 + D * 1000) (frameStart t1 T) = T + D := by
  refine ⟨rfl, ?_⟩
  unfold tickDuration frameStart
  have h1 : t1 + D * 1000 - (t1 - T * 1000) = (T + D) * 1000 := by omega
  rw [h1]
  exact Nat.mul_div_cancel (T + D) (by norm_num)

/-- Witness for C6: paused at 5 s, resumed at instant 9000 ms, stopped
7 s later: the reported elapsed time is 12 s. -/
theorem claim_C6_witness :
    frameStart 9000 5 = 4000 ∧ tickDuration 16000 (frameStart 9000 5) = 12 :=
  claim_C6 5 7 9000 (by norm_num)

/-- firstSupported returns the first entry accepted by the support
predicate, or the empty string when none is. -/
theorem firstSupported_eq_find (support : String → Bool) (ts : List String) :
    firstSupported support ts = (ts.find? support).getD "" := by
  induction ts with
  | nil => rfl
  | cons t ts ih =>
    by_cases h : support t
    · simp [firstSupported, h]
    · simp [firstSupported, h, ih]

/-- C7 (confirmed): the requested encoding is the first supported entry of
the ordered preference list (empty string, meaning platform default, when
none is supported); and whenever the created recorder reports a realized
format, that realized format — not merely the requested one — tags the
finalized blob and is surfaced as the session audioMimeType. -/
theorem claim_C7 (p : Platform) (s : HookState)
    (hm : p.micOk = true) (hr : p.recorderOk = true) (hrm : p.recorderMime ≠ "") :
    (startRecording p true false s).1.mimeTypeRef =
      (preferredTypes.find? p.isTypeSupported).getD "" ∧
    (stopRecording (startRecording p true false s).1).audioMimeType =
      some p.recorderMime ∧
    ((stopRecording (startRecording p true false s).1).audioBlob).map Blob.type =
      some p.recorderMime := by
  refine ⟨?_, ?_, ?_⟩ <;>
    simp [startRecording, startAttempt, acquireMic, acquireDisplay, hm, hr,
      stopRecording, recorderStop, onstop, finalMimeType, hrm,
      getBestAudioMimeType, firstSupported_eq_find]

/-- Witness for C7: the platform supports only audio/webm, so that is the
requested format, but the recorder realizes audio/ogg, and audio/ogg is
what tags the result. -/
theorem claim_C7_witness :
    (startRecording pRealizedDiffers true false initialHookState).1.mimeTypeRef =
      "audio/webm" ∧
    (stopRecording (startRecording pRealizedDiffers true false initialHookState).1).audioMimeType =
      some "audio/ogg" ∧
    ((stopRecording (startRecording pRealizedDiffers true false initialHookState).1).audioBlob).map
        Blob.type = some "audio/ogg" :=
  claim_C7 pRealizedDiffers initialHookState rfl rfl (by decide)

/-- C8 (confirmed): stopRecording is idempotent — a second consecutive stop
changes nothing, so there is no error and no duplicate result emission —
and when the session holds no active recorder (already Idle) the call is a
no-op, not an error. -/
theorem claim_C8 (s : HookState) :
    stopRecording (stopRecording s) = stopRecording s ∧
    ((∀ r, s.mediaRecorder = some r → r.state = RecorderState.inactive) →
      stopRecording s = s) := by
  constructor
  · rcases h : s.mediaRecorder with _ | r
    · simp [stopRecording, h]
    · by_cases hr : r.state = RecorderState.inactive
      · simp [stopRecording, h, hr]
      · have h1 : stopRecording s = recorderStop s := by
          simp [stopRecording, h, hr]
        have h2 : (recorderStop s).mediaRecorder =
            some { r with state := RecorderState.inactive } := by
          simp [recorderStop, h, onstop]
        rw [h1]
        simp [stopRecording, h2]
  · intro hidle
    rcases h : s.mediaRecorder with _ | r
    · simp [stopRecording, h]
    · simp [stopRecording, h, hidle r h]

/-- Witness for C8: double stop on a live session equals a single stop, and
stop on the initial (Idle) state is a no-op. -/
theorem claim_C8_witness :
    stopRecording (stopRecording sessionMid) = stopRecording sessionMid ∧
    stopRecording initialHookState = initialHookState :=
  ⟨(claim_C8 sessionMid).1,
   (claim_C8 initialHookState).2 (fun r h => by simp [initialHookState] at h)⟩

/-- C9 (confirmed): when the display video track ends externally while the
session is Recording or Paused, the onended handler performs exactly the
finalization of an explicit stopRecording call: the session returns to
Idle, the source list is emptied, and a non-null blob holding the
concatenation of the chunks captured up to the interruption is produced. -/
theorem claim_C9 (s : HookState) (r : MediaRecorder)
    (h1 : s.mediaRecorder = some r) (h2 : r.state ≠ RecorderState.inactive)
    (_h3 : s.recordingState = RecordingState.recording ∨
           s.recordingState = RecordingState.paused) :
    onended s = stopRecording s ∧
    (onended s).recordingState = RecordingState.idle ∧
    (onended s).streams = [] ∧
    (onended s).audioBlob =
      some { data := s.chunks.flatten,
             type := finalMimeType r.mimeType s.mimeTypeRef } := by
  have he : onended s = stopRecording s := by
    rcases hm : s.mediaRecorder with _ | r2 <;> simp [onended, stopRecording, hm]
  refine ⟨he, ?_, ?_, ?_⟩ <;>
    rw [he] <;> simp [stopRecording, h1, h2, recorderStop, onstop]

/-- Witness for C9 on a concrete mid-recording session. -/
theorem claim_C9_witness :
    onended sessionMid = stopRecording sessionMid ∧
    (onended sessionMid).recordingState = RecordingState.idle ∧
    (onended sessionMid).streams = [] ∧
    (onended sessionMid).audioBlob = some { data := [1, 2, 3], type := "audio/mp4" } :=
  claim_C9 sessionMid { state := RecorderState.recording, mimeType := "audio/mp4" }
    rfl (by decide) (Or.inl rfl)

/-- Every start call that passes the empty-selection guard clears the
stored blob and resets the duration, on every subsequent path, success or
failure. -/
theorem startRecording_clears (p : Platform) (s : HookState) (m sys : Bool)
    (h : (m || sys) = true) :
    (startRecording p m sys s).1.audioBlob = none ∧
    (startRecording p m sys s).1.duration = 0 := by
  cases m <;> cases sys <;> simp at h <;>
    by_cases h1 : p.micOk <;> by_cases h2 : p.displayOk <;>
      by_cases h3 : 0 < p.displayAudioTracks <;> by_cases h4 : p.recorderOk <;>
        simp [startRecording, startAttempt, acquireMic, acquireDisplay, h1, h2, h3, h4]

/-- C10 (confirmed): a start rejected by the empty-selection guard leaves
the stored result blob, mime type and duration of the previous session
unchanged, while every start call that passes the guard — including one
that later fails during acquisition or recorder creation — clears the
stored blob to none and resets the duration to 0. -/
theorem claim_C10 (p : Platform) (s : HookState) (m sys : Bool)
    (h : m = true ∨ sys = true) :
    (startRecording p false false s).1.audioBlob = s.audioBlob ∧
    (startRecording p false false s).1.audioMimeType = s.audioMimeType ∧
    (startRecording p false false s).1.duration = s.duration ∧
    (startRecording p m sys s).1.audioBlob = none ∧
    (startRecording p m sys s).1.duration = 0 := by
  have hp : (m || sys) = true := by
    rcases h with h | h <;> subst h <;> simp
  refine ⟨?_, ?_, ?_, (startRecording_clears p s m sys hp).1,
    (startRecording_clears p s m sys hp).2⟩ <;> rw [startRecording_noSources]

/-- Witness for C10: the previous session result survives a rejected empty
start, and is destroyed by a guard-passing start that then fails on
recorder creation. -/
theorem claim_C10_witness :
    (startRecording pRecorderFail false false prevSession).1.audioBlob =
      some { data := [7, 7], type := "audio/mp4" } ∧
    (startRecording pRecorderFail false false prevSession).1.audioMimeType =
      some "audio/mp4" ∧
    (startRecording pRecorderFail false false prevSession).1.duration = 42 ∧
    (startRecording pRecorderFail true false prevSession).1.audioBlob = none ∧
    (startRecording pRecorderFail true false prevSession).1.duration = 0 :=
  claim_C10 pRecorderFail prevSession true false (Or.inl rfl)

end RecMind
